import Mathlib

/-!
Verification of the plant-disease prediction core of this repository.

The embedding translates the Python sources:
  * `Back End/utilities.py` : `makePrediction`, `mock_prediction`, `validate_image`
  * `Back End/app.py`       : `format_prediction`, `allowed_file`, `api_predict`

Modelling conventions:
  * Python strings are Lean `String`s; the Python string operations used by the
    code (`in`, `lower`, `capitalize`, `replace`, `split`, `startswith`-style
    prefix tests, `rsplit('.', 1)`) are implemented below as structural
    recursions over `List Char`, so that every definition evaluates inside the
    kernel.
  * Python's built-in `hash` is salted per process (`PYTHONHASHSEED`), so a run
    of the program is parameterised by the process hash function
    `h : HashFn`.  `abs(hash(x))` is a natural number.  The strings the code
    hashes (`filename`, `str(mean_color)`, `str(mean_color)+str(std_color)`)
    are modelled by the values that determine them (`HKey`).
  * numpy's per-channel float means/stds over the decoded RGB pixels are
    determined by the per-channel sums, sums of squares and the pixel count.
    The branch test `mean_g > mean_r * 1.2` is embedded denominator-free over
    the common positive denominator `n = #pixels` as `5 * sum_g > 6 * sum_r`
    (for `n = 0` numpy yields NaN and every comparison is false, matching
    `0 > 0`).  The rational-valued means are also defined (`meanColor`) and
    linked to the integer test by `mean_gt_iff`.
  * The module-level capability probes `HAS_PIL` / `HAS_NUMPY` are explicit
    boolean parameters, and the `except`-handler of `mock_prediction` is
    reached through the explicit `raises` flag (the Lean body itself is total).
-/

namespace Plants

/-! ### Python string primitives over `List Char` -/

/-- `isPrefixList p s`: the character list `p` is a prefix of `s`. -/
def isPrefixList : List Char → List Char → Bool
  | [], _ => true
  | _ :: _, [] => false
  | p :: ps, c :: cs => p == c && isPrefixList ps cs

/-- Python `pat in s` on character lists: `pat` occurs as a contiguous
substring of `s`. -/
def containsList (pat : List Char) : List Char → Bool
  | [] => isPrefixList pat []
  | c :: cs => isPrefixList pat (c :: cs) || containsList pat cs

/-- Auxiliary worker for `replaceList`; `fuel` dominates the number of
consumed characters, so `fuel = s.length` always suffices. -/
def replaceListAux (pat sub : List Char) : Nat → List Char → List Char
  | _, [] => []
  | 0, rest => rest
  | fuel + 1, c :: cs =>
    if isPrefixList pat (c :: cs) then
      sub ++ replaceListAux pat sub fuel (List.drop pat.length (c :: cs))
    else
      c :: replaceListAux pat sub fuel cs

/-- Python `s.replace(pat, sub)` for a non-empty pattern: replace all
non-overlapping occurrences left to right. -/
def replaceList (pat sub s : List Char) : List Char :=
  replaceListAux pat sub s.length s

/-- Python `str.replace` on `String`s (non-empty pattern). -/
def pyReplace (s pat sub : String) : String :=
  String.mk (replaceList pat.data sub.data s.data)

/-- Python `s.lower()` (ASCII, which covers every string the code handles). -/
def pyLower (s : String) : String :=
  String.mk (s.data.map Char.toLower)

/-- Python `str.capitalize()`: first character upper-cased, all remaining
characters lower-cased. -/
def pyCapitalize (w : String) : String :=
  match w.data with
  | [] => String.mk []
  | c :: cs => String.mk (c.toUpper :: cs.map Char.toLower)

/-- Worker for Python's argument-less `s.split()`: split on runs of
whitespace, dropping empty words; `acc` holds the current word reversed. -/
def splitWsAux : List Char → List Char → List (List Char)
  | [], acc => if acc.isEmpty then [] else [acc.reverse]
  | c :: cs, acc =>
    if c.isWhitespace then
      if acc.isEmpty then splitWsAux cs [] else acc.reverse :: splitWsAux cs []
    else
      splitWsAux cs (c :: acc)

/-- Python `s.split()` (no separator argument). -/
def pySplitWs (s : String) : List String :=
  (splitWsAux s.data []).map String.mk

/-- Python `"Error:"`-prefix test (`startswith`). -/
def startsWithError (s : String) : Bool :=
  isPrefixList "Error:".data s.data

/-- Python `'healthy' in c.lower()`. -/
def hasHealthyWord (c : String) : Bool :=
  containsList "healthy".data (c.data.map Char.toLower)

/-! ### The fixed 38-class taxonomy (`utilities.py`, lines 36-75) -/

def classes : List String := [
  "Apple___Apple_scab",
  "Apple___Black_rot",
  "Apple___Cedar_apple_rust",
  "Apple___healthy",
  "Blueberry___healthy",
  "Cherry_(including_sour)___Powdery_mildew",
  "Cherry_(including_sour)___healthy",
  "Corn_(maize)___Cercospora_leaf_spot Gray_leaf_spot",
  "Corn_(maize)___Common_rust_",
  "Corn_(maize)___Northern_Leaf_Blight",
  "Corn_(maize)___healthy",
  "Grape___Black_rot",
  "Grape___Esca_(Black_Measles)",
  "Grape___Leaf_blight_(Isariopsis_Leaf_Spot)",
  "Grape___healthy",
  "Orange___Haunglongbing_(Citrus_greening)",
  "Peach___Bacterial_spot",
  "Peach___healthy",
  "Pepper,_bell___Bacterial_spot",
  "Pepper,_bell___healthy",
  "Potato___Early_blight",
  "Potato___Late_blight",
  "Potato___healthy",
  "Raspberry___healthy",
  "Soybean___healthy",
  "Squash___Powdery_mildew",
  "Strawberry___Leaf_scorch",
  "Strawberry___healthy",
  "Tomato___Bacterial_spot",
  "Tomato___Early_blight",
  "Tomato___Late_blight",
  "Tomato___Leaf_Mold",
  "Tomato___Septoria_leaf_spot",
  "Tomato___Spider_mites Two-spotted_spider_mite",
  "Tomato___Target_Spot",
  "Tomato___Tomato_Yellow_Leaf_Curl_Virus",
  "Tomato___Tomato_mosaic_virus",
  "Tomato___healthy"]

/-- `[c for c in classes if 'healthy' in c.lower()]`. -/
def healthyOf (cls : List String) : List String :=
  cls.filter (fun c => hasHealthyWord c)

/-- `[c for c in classes if 'healthy' not in c.lower()]`. -/
def diseasedOf (cls : List String) : List String :=
  cls.filter (fun c => !hasHealthyWord c)

/-! ### Data model -/

/-- A decoded image (`PIL.Image` after `convert('RGB')`): dimensions, the
decoded RGB pixel values (one `(r, g, b)` triple per pixel), the format PIL
detected, and the `filename` attribute PIL sets when opening from a path
(`none` models an image object without that attribute). -/
structure Img where
  width : Nat
  height : Nat
  pixels : List (Nat × Nat × Nat)
  format : String
  filename : Option String

/-- What the filesystem and PIL provide for an input path: whether
`os.path.exists` holds, `os.path.getsize` in bytes, the basename, and the
result of `Image.open(path).convert('RGB')` (`none` when decoding raises). -/
structure FSImage where
  found : Bool
  size : Nat
  basename : String
  decoded : Option Img

/-- The values Python's salted `hash` is applied to: a plain string
(filename), `str(mean_color)` (determined by the channel sums and the pixel
count), and `str(mean_color) + str(std_color)` (determined additionally by
the channel sums of squares). -/
inductive HKey where
  | name (s : String)
  | mean (sr sg sb n : Nat)
  | meanStd (sr sg sb ssr ssg ssb n : Nat)

/-- One process run's `abs(hash(·))` function.  It is fixed within a process
and re-randomised across process restarts (`PYTHONHASHSEED`). -/
abbrev HashFn := HKey → Nat

/-! ### Channel statistics (numpy `mean` / `std` over the pixel grid) -/

/-- Sum of the red channel over all pixels. -/
def sumR (img : Img) : Nat := (img.pixels.map (fun p => p.1)).sum

/-- Sum of the green channel over all pixels. -/
def sumG (img : Img) : Nat := (img.pixels.map (fun p => p.2.1)).sum

/-- Sum of the blue channel over all pixels. -/
def sumB (img : Img) : Nat := (img.pixels.map (fun p => p.2.2)).sum

/-- Sums of squares per channel (together with `sumR/G/B` and the pixel count
these determine numpy's `std_color`). -/
def sumSqR (img : Img) : Nat := (img.pixels.map (fun p => p.1 * p.1)).sum
def sumSqG (img : Img) : Nat := (img.pixels.map (fun p => p.2.1 * p.2.1)).sum
def sumSqB (img : Img) : Nat := (img.pixels.map (fun p => p.2.2 * p.2.2)).sum

/-- numpy's `mean_color` as exact rationals `(mean_r, mean_g, mean_b)`. -/
def meanColor (img : Img) : ℚ × ℚ × ℚ :=
  ((sumR img : ℚ) / img.pixels.length,
   (sumG img : ℚ) / img.pixels.length,
   (sumB img : ℚ) / img.pixels.length)

/-- The green-dominance test of `mock_prediction`
(`mean_color[1] > mean_color[0] * 1.2 and mean_color[1] > mean_color[2] * 1.2`)
written denominator-free over the common denominator `#pixels`
(`5 * sum_g > 6 * sum_r`, etc.); for an empty pixel list numpy compares
against NaN, which is false, matching `0 > 0`. -/
def greenDominant (img : Img) : Prop :=
  5 * sumG img > 6 * sumR img ∧ 5 * sumG img > 6 * sumB img

instance (img : Img) : Decidable (greenDominant img) := by
  unfold greenDominant; infer_instance

/-- The string Python hashes in the degraded (no-numpy) branch:
`img.filename if hasattr(img, 'filename') else str(width * height)`. -/
def degradedKey (img : Img) : HKey :=
  HKey.name (match img.filename with
    | some f => f
    | none => toString (img.width * img.height))

/-! ### `mock_prediction` (`utilities.py`, lines 120-174) -/

/-- `mock_prediction(img, classes)`.  `raises = true` models an exception
escaping the `try` body (caught by the handler on lines 172-174); the
translated body itself is total.  Selection indices are `abs(hash(...)) %
len(subset)`, modelled through the process hash `h`; `List.getD` with a dummy
default stands for Python list indexing, whose index is already `< length`
by the `%`. -/
def mock_prediction (h : HashFn) (hasNumpy raises : Bool) (img : Img)
    (cls : List String) : String :=
  if raises then "Tomato___healthy"
  else if hasNumpy then
    if greenDominant img ∧ healthyOf cls ≠ [] then
      (healthyOf cls).getD
        (h (HKey.mean (sumR img) (sumG img) (sumB img) img.pixels.length) %
          (healthyOf cls).length) ""
    else if diseasedOf cls ≠ [] then
      (diseasedOf cls).getD
        (h (HKey.meanStd (sumR img) (sumG img) (sumB img)
              (sumSqR img) (sumSqG img) (sumSqB img) img.pixels.length) %
          (diseasedOf cls).length) ""
    else cls.headD "Unknown"
  else
    if h (degradedKey img) % 4 = 0 ∧ healthyOf cls ≠ [] then
      (healthyOf cls).getD
        (h (degradedKey img) % (healthyOf cls).length) ""
    else if diseasedOf cls ≠ [] then
      (diseasedOf cls).getD
        (h (degradedKey img) % (diseasedOf cls).length) ""
    else cls.headD "Unknown"

/-! ### `makePrediction` (`utilities.py`, lines 24-118) -/

/-- `makePrediction(path)`.  The outer `try` of the source can only fire on
failures foreign to the translated logic (e.g. the logger), so it is not
modelled; every branch of the body returns a value. -/
def makePrediction (h : HashFn) (hasPIL hasNumpy raises : Bool)
    (inp : FSImage) : String :=
  if inp.found = false then "Error: Image file not found"
  else if hasPIL = false then
    if classes = [] then "Tomato___healthy"
    else classes.getD (h (HKey.name inp.basename) % classes.length) ""
  else
    match inp.decoded with
    | none => "Error: Invalid image format"
    | some img =>
      if img.width < 50 ∨ img.height < 50 then
        "Error: Image too small for analysis"
      else if img.width > 5000 ∨ img.height > 5000 then
        "Error: Image too large for analysis"
      else mock_prediction h hasNumpy raises img classes

/-! ### `validate_image` (`utilities.py`, lines 228-264) -/

/-- `validate_image(img_path)`, returning `(is_valid, message)`.  The text of
the generic exception message (`"Image validation failed: <e>"`) depends on
the exception and is abstracted to its fixed stem. -/
def validate_image (inp : FSImage) : Bool × String :=
  if inp.found = false then (false, "Image file not found")
  else if inp.size > 16 * 1024 * 1024 then
    (false, "Image file too large (max 16MB)")
  else
    match inp.decoded with
    | none => (false, "Image validation failed")
    | some img =>
      if ¬ (img.format ∈ ["JPEG", "PNG", "GIF"]) then
        (false, "Unsupported image format")
      else if img.width < 50 ∨ img.height < 50 then
        (false, "Image too small (minimum 50x50 pixels)")
      else if img.width > 5000 ∨ img.height > 5000 then
        (false, "Image too large (maximum 5000x5000 pixels)")
      else (true, "Image is valid")

/-! ### `format_prediction` and friends (`app.py`) -/

/-- The fixed minor-word list of `format_prediction` (`app.py`, line 157). -/
def minorWords : List String :=
  ["and", "or", "the", "of", "in", "on", "at", "to", "for", "with"]

/-- The per-word step of `format_prediction`'s loop (`app.py`, lines 156-160):
minor words are lower-cased wherever they occur, every other word goes
through `str.capitalize()`. -/
def formatWord (w : String) : String :=
  if pyLower w ∈ minorWords then pyLower w else pyCapitalize w

/-- `format_prediction(prediction)` (`app.py`, lines 145-162).  Python's
`if not prediction` guard (`None` or `""`) is modelled by the empty string. -/
def format_prediction (p : String) : String :=
  if p = "" then "Unknown condition"
  else
    String.intercalate " "
      ((pySplitWs (pyReplace (pyReplace p "___" " - ") "_" " ")).map formatWord)

/-- `allowed_file(filename)` (`app.py`, lines 20-23): the text after the last
dot, lower-cased, must be one of the allowed extensions. -/
def allowed_file (f : String) : Bool :=
  f.data.contains '.' &&
    ["png", "jpg", "jpeg", "gif"].contains
      (String.mk ((f.data.reverse.takeWhile (fun c => c ≠ '.')).reverse.map
        Char.toLower))

/-! ### `api_predict` (`app.py`, lines 91-127) -/

/-- The JSON body and status code `/api/predict` answers with.  The mock
`confidence` field is a fixed arithmetic decoration of the label and carries
no claim-relevant information, so it is not modelled. -/
structure ApiResponse where
  success : Bool
  error : Option String
  prediction : Option String
  original_prediction : Option String
  status : Nat

/-- `api_predict()`: `hasFile` is `'img' in request.files`, `origName` the
uploaded filename (checked by `allowed_file`), and `stored` what the saved
upload looks like on disk to `makePrediction`.  On the main path the handler
always answers `success: True`, whatever string `makePrediction` returned. -/
def api_predict (h : HashFn) (hasPIL hasNumpy raises : Bool) (hasFile : Bool)
    (origName : String) (stored : FSImage) : ApiResponse :=
  if hasFile = false then
    { success := false, error := some "No file uploaded", prediction := none,
      original_prediction := none, status := 400 }
  else if origName = "" then
    { success := false, error := some "No file selected", prediction := none,
      original_prediction := none, status := 400 }
  else if allowed_file origName = false then
    { success := false, error := some "Invalid file type", prediction := none,
      original_prediction := none, status := 400 }
  else
    { success := true, error := none,
      prediction :=
        some (format_prediction (makePrediction h hasPIL hasNumpy raises stored)),
      original_prediction := some (makePrediction h hasPIL hasNumpy raises stored),
      status := 200 }

/-! ### Helper lemmas -/

/-- Indexing a non-empty list at `k % length` with a dummy default always
lands inside the list (Python `subset[hash % len(subset)]`). -/
theorem getD_mod_mem {α : Type} (l : List α) (hl : l ≠ []) (k : Nat) (d : α) :
    l.getD (k % l.length) d ∈ l := by
  have hlen : 0 < l.length := List.length_pos.mpr hl
  have hk : k % l.length < l.length := Nat.mod_lt _ hlen
  rw [List.getD_eq_getElem?_getD, List.getElem?_eq_getElem hk, Option.getD_some]
  exact List.getElem_mem hk

/-- No taxonomy member carries the reserved error prefix. -/
theorem classes_no_error_prefix : ∀ c ∈ classes, startsWithError c = false := by
  decide

theorem healthyOf_classes_ne_nil : healthyOf classes ≠ [] := by decide

theorem diseasedOf_classes_ne_nil : diseasedOf classes ≠ [] := by decide

/-- Every label `mock_prediction` can produce over the fixed taxonomy is a
taxonomy member — every branch indexes a filtered sub-list, falls back to
`classes[0]`, or returns the fixed member `"Tomato___healthy"`. -/
theorem mock_prediction_mem (h : HashFn) (hasNumpy raises : Bool) (img : Img) :
    mock_prediction h hasNumpy raises img classes ∈ classes := by
  unfold mock_prediction
  split_ifs with h1 h2 h3 h4 h5 h6
  · decide
  · exact (List.mem_filter.mp
      (getD_mod_mem _ healthyOf_classes_ne_nil _ _)).1
  · exact (List.mem_filter.mp
      (getD_mod_mem _ diseasedOf_classes_ne_nil _ _)).1
  · exact absurd diseasedOf_classes_ne_nil h4
  · exact (List.mem_filter.mp
      (getD_mod_mem _ healthyOf_classes_ne_nil _ _)).1
  · exact (List.mem_filter.mp
      (getD_mod_mem _ diseasedOf_classes_ne_nil _ _)).1
  · exact absurd diseasedOf_classes_ne_nil h6

/-- When the green-dominance test succeeds, the numpy branch picks from the
healthy subset. -/
theorem mock_prediction_green (h : HashFn) (raises : Bool) (img : Img)
    (hr : raises = false) (hg : greenDominant img) :
    mock_prediction h true raises img classes ∈ healthyOf classes := by
  unfold mock_prediction
  rw [hr]
  simp only [Bool.false_eq_true, if_false, if_true]
  rw [if_pos ⟨hg, healthyOf_classes_ne_nil⟩]
  exact getD_mod_mem _ healthyOf_classes_ne_nil _ _

/-- When the green-dominance test fails, the numpy branch picks from the
diseased subset. -/
theorem mock_prediction_not_green (h : HashFn) (raises : Bool) (img : Img)
    (hr : raises = false) (hg : ¬ greenDominant img) :
    mock_prediction h true raises img classes ∈ diseasedOf classes := by
  unfold mock_prediction
  rw [hr]
  simp only [Bool.false_eq_true, if_false, if_true]
  rw [if_neg (fun hc => hg hc.1), if_pos diseasedOf_classes_ne_nil]
  exact getD_mod_mem _ diseasedOf_classes_ne_nil _ _

/-- The float mean comparison of the source, `mean_g > mean_r * 1.2`,
coincides with the denominator-free integer test for a non-empty pixel
list. -/
theorem mean_gt_iff (a b n : Nat) (hn : n ≠ 0) :
    (a : ℚ) / n > ((b : ℚ) / n) * (6 / 5) ↔ 5 * a > 6 * b := by
  have hn' : (0 : ℚ) < n := by
    exact_mod_cast Nat.pos_of_ne_zero hn
  rw [gt_iff_lt, div_mul_eq_mul_div, div_lt_div_iff₀ hn' hn']
  constructor
  · intro hlt
    have h5 : (6 : ℚ) * b < 5 * a := by nlinarith
    exact_mod_cast h5
  · intro hlt
    have h5 : (6 : ℚ) * b < 5 * a := by exact_mod_cast hlt
    nlinarith

/-- `greenDominant` re-expressed through the rational channel means, as the
source writes it. -/
theorem greenDominant_iff_means (img : Img) (hn : img.pixels ≠ []) :
    greenDominant img ↔
      ((meanColor img).2.1 > (meanColor img).1 * (6 / 5) ∧
       (meanColor img).2.1 > (meanColor img).2.2 * (6 / 5)) := by
  have hlen : img.pixels.length ≠ 0 := fun h => hn (List.length_eq_zero.mp h)
  unfold greenDominant meanColor
  rw [mean_gt_iff _ _ _ hlen, mean_gt_iff _ _ _ hlen]

/-! ### Concrete fixtures

Process hash functions (`hConstN` stands for a process in which every
`abs(hash(...))` the pipeline computes happens to be `N`) and concrete
inputs used by the witnesses and counterexamples. -/

def hConst0 : HashFn := fun _ => 0
def hConst1 : HashFn := fun _ => 1
def hConst3 : HashFn := fun _ => 3
def hConst4 : HashFn := fun _ => 4
def hConst11 : HashFn := fun _ => 11

/-- A uniformly gray decodable 50×50 JPEG (pixel list abbreviated to one
pixel; only the channel statistics feed the selector). -/
def imgGray : Img := ⟨50, 50, [(100, 100, 100)], "JPEG", some "leaf.jpg"⟩

def inpGray : FSImage := ⟨true, 1000, "leaf.jpg", some imgGray⟩

/-- A pure-green decodable image. -/
def imgGreen : Img := ⟨50, 50, [(0, 255, 0)], "PNG", some "g.png"⟩

/-- A 50×50 image every pixel of which is pure green `(0, 255, 0)`. -/
def imgPureGreen50 : Img :=
  ⟨50, 50, List.replicate 2500 (0, 255, 0), "PNG", some "green.png"⟩

/-- A uniform image whose green mean is exactly 1.2 times the red and blue
means. -/
def imgBoundary : Img := ⟨50, 50, [(10, 12, 10)], "PNG", some "b.png"⟩

/-- An existing path that PIL fails to decode (used on the PIL-less path,
where `decoded` is never consulted). -/
def inpPlain : FSImage := ⟨true, 500, "leaf.jpg", none⟩

/-- A 49×49 decodable PNG. -/
def img49 : Img := ⟨49, 49, [(1, 2, 3)], "PNG", some "tiny.png"⟩

def inp49 : FSImage := ⟨true, 800, "tiny.png", some img49⟩

/-- A well-dimensioned image whose decoded format is BMP — outside the
`validate_image` allow-list — saved under a `.png` name. -/
def imgBMP : Img := ⟨100, 100, [(100, 100, 100)], "BMP", some "leaf.png"⟩

def inpBMP : FSImage := ⟨true, 1000, "leaf.png", some imgBMP⟩

/-- A decodable JPEG whose file weighs 17 MiB, above the 16 MiB cap of
`validate_image`. -/
def imgBig : Img := ⟨100, 100, [(100, 100, 100)], "JPEG", some "big.jpg"⟩

def inpBig : FSImage := ⟨true, 17 * 1024 * 1024, "big.jpg", some imgBig⟩

/-- The 50×50 all-green image satisfies the green-dominance test. -/
theorem imgPureGreen50_dominant : greenDominant imgPureGreen50 := by
  unfold greenDominant sumG sumR sumB imgPureGreen50
  simp only [List.map_replicate, List.sum_replicate, smul_eq_mul]
  norm_num

/-- Once the input exists and PIL is available, `makePrediction` on a
successfully decoded image reduces to the dimension checks guarding
`mock_prediction`. -/
theorem makePrediction_decoded (h : HashFn) (hasNumpy raises : Bool)
    (inp : FSImage) (img : Img) (hf : inp.found = true)
    (hd : inp.decoded = some img) :
    makePrediction h true hasNumpy raises inp =
      if img.width < 50 ∨ img.height < 50 then
        "Error: Image too small for analysis"
      else if img.width > 5000 ∨ img.height > 5000 then
        "Error: Image too large for analysis"
      else mock_prediction h hasNumpy raises img classes := by
  unfold makePrediction
  rw [if_neg (by simp [hf]), if_neg (by decide : ¬ ((true : Bool) = false)), hd]

/-! ### Claim theorems -/

/-- C1: the claim says the pipeline returns the identical raw label across
process restarts for identical bytes and filename.  The code hashes with
Python's per-process-salted `hash` (its own comments promise "consistency"),
so two processes whose hash functions differ return different labels for the
same stored image: with every hash equal to 0 the gray 50×50 input selects
diseased index 0, with every hash equal to 1 it selects diseased index 1. -/
theorem C1_restart_divergence :
    makePrediction hConst0 true true false inpGray = "Apple___Apple_scab" ∧
    makePrediction hConst1 true true false inpGray = "Apple___Black_rot" ∧
    makePrediction hConst0 true true false inpGray ≠
      makePrediction hConst1 true true false inpGray := by decide

/-- C3: for an existing input that decodes to an image within the dimension
bounds, `makePrediction` returns a member of the fixed 38-class taxonomy,
whatever the process hash, capability flags, or an internal
`mock_prediction` exception. -/
theorem C3_taxonomy_closure (h : HashFn) (hasPIL hasNumpy raises : Bool)
    (inp : FSImage) (img : Img) (hf : inp.found = true)
    (hd : inp.decoded = some img) (h1 : 50 ≤ img.width) (h2 : 50 ≤ img.height)
    (h3 : img.width ≤ 5000) (h4 : img.height ≤ 5000) :
    makePrediction h hasPIL hasNumpy raises inp ∈ classes := by
  by_cases hp : hasPIL = false
  · unfold makePrediction
    rw [if_neg (by simp [hf]), if_pos hp, if_neg (by decide : ¬ (classes = []))]
    exact getD_mod_mem _ (by decide) _ _
  · have hp' : hasPIL = true := by revert hp; cases hasPIL <;> simp
    subst hp'
    rw [makePrediction_decoded h hasNumpy raises inp img hf hd,
      if_neg (by omega), if_neg (by omega)]
    exact mock_prediction_mem h hasNumpy raises img

theorem C3_taxonomy_closure_witness :
    makePrediction hConst0 true true false inpGray ∈ classes :=
  C3_taxonomy_closure hConst0 true true false inpGray imgGray rfl rfl
    (by decide) (by decide) (by decide) (by decide)

/-- C8: the claim says no input breaching the 16 MiB size cap or the
JPEG/PNG/GIF format allow-list reaches label selection.  `validate_image`
does implement both checks, but `makePrediction` never calls it: a decodable
100×100 BMP and a 17 MiB JPEG both flow straight to `mock_prediction` and
come back as taxonomy labels, even though `validate_image` rejects each. -/
theorem C8_validator_not_wired :
    (validate_image inpBMP = (false, "Unsupported image format") ∧
     makePrediction hConst0 true true false inpBMP = "Apple___Apple_scab" ∧
     makePrediction hConst0 true true false inpBMP ∈ classes) ∧
    (inpBig.size > 16 * 1024 * 1024 ∧
     validate_image inpBig = (false, "Image file too large (max 16MB)") ∧
     makePrediction hConst0 true true false inpBig = "Apple___Apple_scab" ∧
     makePrediction hConst0 true true false inpBig ∈ classes) := by decide

/-- C9 counterexample: the claim says every degraded (no-pixel-data) path
uses a 25%/75% healthy/diseased split on the filename hash.  On the PIL-less
degraded path the code instead indexes the full taxonomy by `hash % 38`: in
a process where the filename hashes to 3 — which selects the 75% diseased
branch under the claimed split — the pipeline returns `classes[3]`, a healthy
label. -/
theorem C9_nopil_counterexample :
    hConst3 (HKey.name inpPlain.basename) % 4 ≠ 0 ∧
    makePrediction hConst3 false true false inpPlain = "Apple___healthy" ∧
    "Apple___healthy" ∈ healthyOf classes := by decide

/-- C9 amended: the 25%/75% hash split on the degraded key holds in the
numpy-less branch of `mock_prediction`; the PIL-less degraded path of
`makePrediction`, however, indexes the full taxonomy directly by
`hash(basename) mod 38` with no healthy/diseased split. -/
theorem C9_degraded_amended :
    (∀ (h : HashFn) (img : Img), h (degradedKey img) % 4 = 0 →
        mock_prediction h false false img classes ∈ healthyOf classes) ∧
    (∀ (h : HashFn) (img : Img), h (degradedKey img) % 4 ≠ 0 →
        mock_prediction h false false img classes ∈ diseasedOf classes) ∧
    (∀ (h : HashFn) (hasNumpy raises : Bool) (inp : FSImage),
        inp.found = true →
        makePrediction h false hasNumpy raises inp =
          classes.getD (h (HKey.name inp.basename) % classes.length) "") := by
  refine ⟨fun h img hmod => ?_, fun h img hmod => ?_, fun h hN r inp hf => ?_⟩
  · unfold mock_prediction
    simp only [Bool.false_eq_true, if_false]
    rw [if_pos ⟨hmod, healthyOf_classes_ne_nil⟩]
    exact getD_mod_mem _ healthyOf_classes_ne_nil _ _
  · unfold mock_prediction
    simp only [Bool.false_eq_true, if_false]
    rw [if_neg (fun hc => hmod hc.1), if_pos diseasedOf_classes_ne_nil]
    exact getD_mod_mem _ diseasedOf_classes_ne_nil _ _
  · unfold makePrediction
    rw [if_neg (by simp [hf]), if_pos rfl, if_neg (by decide : ¬ (classes = []))]

theorem C9_degraded_amended_witness :
    mock_prediction hConst4 false false imgGray classes ∈ healthyOf classes ∧
    mock_prediction hConst3 false false imgGray classes ∈ diseasedOf classes ∧
    makePrediction hConst0 false true false inpGray =
      classes.getD (hConst0 (HKey.name inpGray.basename) % classes.length) "" :=
  ⟨C9_degraded_amended.1 hConst4 imgGray (by decide),
   C9_degraded_amended.2.1 hConst3 imgGray (by decide),
   C9_degraded_amended.2.2 hConst0 true false inpGray rfl⟩

/-- C10: when an exception escapes the analysis inside `mock_prediction`
after validation already succeeded, the handler returns the fixed taxonomy
member `"Tomato___healthy"` — not an `"Error:"` sentinel — and the very same
string is also a genuine prediction (a green image in a process hashing to
11 produces it through the healthy branch), so the caller cannot tell an
internal failure from a real healthy diagnosis. -/
theorem C10_exception_fallback :
    (∀ (h : HashFn) (hasNumpy : Bool) (img : Img),
        mock_prediction h hasNumpy true img classes = "Tomato___healthy") ∧
    "Tomato___healthy" ∈ classes ∧
    startsWithError "Tomato___healthy" = false ∧
    mock_prediction hConst11 true false imgGreen classes = "Tomato___healthy" :=
  ⟨fun _ _ _ => rfl, by decide, by decide, by decide⟩

/-- C2: `makePrediction` (a total function of its input in this embedding —
every failure path returns a value) yields a string carrying the reserved
`"Error:"` prefix exactly when validation or decoding failed: the file does
not exist, or PIL was consulted and either decoding raised or the decoded
dimensions fall outside `[50, 5000]` on some axis.  Every successful path
returns a taxonomy member, none of which carries the prefix. -/
theorem C2_error_prefix_iff (h : HashFn) (hasPIL hasNumpy raises : Bool)
    (inp : FSImage) :
    startsWithError (makePrediction h hasPIL hasNumpy raises inp) = true ↔
      (inp.found = false ∨
       (hasPIL = true ∧ inp.decoded = none) ∨
       (hasPIL = true ∧ ∃ img, inp.decoded = some img ∧
          (img.width < 50 ∨ img.height < 50 ∨
           img.width > 5000 ∨ img.height > 5000))) := by
  by_cases hf : inp.found = false
  · unfold makePrediction
    rw [if_pos hf]
    exact iff_of_true (by decide) (Or.inl hf)
  · have hf' : inp.found = true := by revert hf; cases inp.found <;> simp
    by_cases hp : hasPIL = false
    · unfold makePrediction
      rw [if_neg hf, if_pos hp, if_neg (by decide : ¬ (classes = []))]
      have hnp := classes_no_error_prefix _
        (getD_mod_mem classes (by decide) (h (HKey.name inp.basename)) "")
      constructor
      · intro hcontra
        rw [hnp] at hcontra
        exact absurd hcontra (by decide)
      · rintro (hc | ⟨hc, _⟩ | ⟨hc, _⟩)
        · exact absurd (hf'.symm.trans hc) (by decide)
        · exact absurd (hp.symm.trans hc) (by decide)
        · exact absurd (hp.symm.trans hc) (by decide)
    · have hp' : hasPIL = true := by revert hp; cases hasPIL <;> simp
      subst hp'
      cases hdec : inp.decoded with
      | none =>
        unfold makePrediction
        rw [if_neg hf, if_neg (by decide : ¬ ((true : Bool) = false)), hdec]
        constructor
        · intro _
          exact Or.inr (Or.inl ⟨rfl, rfl⟩)
        · intro _
          show startsWithError "Error: Invalid image format" = true
          decide
      | some img =>
        rw [makePrediction_decoded h hasNumpy raises inp img hf' hdec]
        by_cases hsmall : img.width < 50 ∨ img.height < 50
        · rw [if_pos hsmall]
          refine iff_of_true (by decide) (Or.inr (Or.inr ⟨rfl, img, rfl, ?_⟩))
          omega
        · rw [if_neg hsmall]
          by_cases hlarge : img.width > 5000 ∨ img.height > 5000
          · rw [if_pos hlarge]
            refine iff_of_true (by decide) (Or.inr (Or.inr ⟨rfl, img, rfl, ?_⟩))
            omega
          · rw [if_neg hlarge]
            have hnp := classes_no_error_prefix _
              (mock_prediction_mem h hasNumpy raises img)
            constructor
            · intro hcontra
              rw [hnp] at hcontra
              exact absurd hcontra (by decide)
            · rintro (hc | ⟨_, hc⟩ | ⟨_, img', hc, hdims⟩)
              · exact absurd (hf'.symm.trans hc) (by decide)
              · exact Option.noConfusion hc
              · obtain rfl : img' = img := by injection hc with hi; exact hi.symm
                exact absurd hdims (by omega)

/-- C7: with the input present and decoded, the pipeline returns the
dimension-failure sentinel exactly when width or height is below 50 or above
5000 pixels on either axis, and in that case the result is never a taxonomy
label. -/
theorem C7_dimension_iff (h : HashFn) (hasNumpy raises : Bool)
    (inp : FSImage) (img : Img) (hf : inp.found = true)
    (hd : inp.decoded = some img) :
    ((makePrediction h true hasNumpy raises inp =
        "Error: Image too small for analysis" ∨
      makePrediction h true hasNumpy raises inp =
        "Error: Image too large for analysis") ↔
      (img.width < 50 ∨ img.height < 50 ∨
       img.width > 5000 ∨ img.height > 5000)) ∧
    ((img.width < 50 ∨ img.height < 50 ∨
      img.width > 5000 ∨ img.height > 5000) →
      makePrediction h true hasNumpy raises inp ∉ classes) := by
  rw [makePrediction_decoded h hasNumpy raises inp img hf hd]
  by_cases hsmall : img.width < 50 ∨ img.height < 50
  · rw [if_pos hsmall]
    exact ⟨iff_of_true (Or.inl rfl) (by omega), fun _ => by decide⟩
  · rw [if_neg hsmall]
    by_cases hlarge : img.width > 5000 ∨ img.height > 5000
    · rw [if_pos hlarge]
      exact ⟨iff_of_true (Or.inr rfl) (by omega), fun _ => by decide⟩
    · rw [if_neg hlarge]
      have hmem := mock_prediction_mem h hasNumpy raises img
      constructor
      · constructor
        · rintro (hc | hc)
          · exact absurd (hc ▸ hmem)
              (by decide : "Error: Image too small for analysis" ∉ classes)
          · exact absurd (hc ▸ hmem)
              (by decide : "Error: Image too large for analysis" ∉ classes)
        · intro hdims
          exact absurd hdims (by omega)
      · intro hdims
        exact absurd hdims (by omega)

theorem C7_dimension_iff_witness :
    (makePrediction hConst0 true true false inp49 =
       "Error: Image too small for analysis" ∨
     makePrediction hConst0 true true false inp49 =
       "Error: Image too large for analysis") ∧
    makePrediction hConst0 true true false inp49 ∉ classes :=
  ⟨(C7_dimension_iff hConst0 true false inp49 img49 rfl rfl).1.mpr (by decide),
   (C7_dimension_iff hConst0 true false inp49 img49 rfl rfl).2 (by decide)⟩

/-- C6 counterexample: the claim requires a healthy-subset label whenever the
green mean exceeds the red and blue means "by a factor of at least 1.2".  On
a uniform `(10, 12, 10)` image the green mean equals exactly 1.2 times each
other mean, yet the source's strict comparison
(`mean_color[1] > mean_color[0] * 1.2`) fails and the label is drawn from
the diseased subset. -/
theorem C6_boundary_counterexample :
    meanColor imgBoundary = (10, 12, 10) ∧
    (meanColor imgBoundary).2.1 = (meanColor imgBoundary).1 * (6 / 5) ∧
    (meanColor imgBoundary).2.1 = (meanColor imgBoundary).2.2 * (6 / 5) ∧
    mock_prediction hConst0 true false imgBoundary classes =
      "Apple___Apple_scab" ∧
    hasHealthyWord "Apple___Apple_scab" = false ∧
    "Apple___Apple_scab" ∈ diseasedOf classes := by
  have hm : meanColor imgBoundary = (10, 12, 10) := by
    norm_num [meanColor, sumR, sumG, sumB, imgBoundary]
  refine ⟨hm, ?_, ?_, by decide, by decide, by decide⟩
  · rw [hm]; norm_num
  · rw [hm]; norm_num

/-- C6 amended: when the green mean strictly exceeds 1.2 times both the red
and the blue means, the numpy branch selects from the healthy subset — in
particular the 50×50 pure-green image does — and otherwise (including the
exact factor 1.2) it selects from the diseased subset. -/
theorem C6_green_branch_amended :
    (∀ (h : HashFn) (img : Img), img.pixels ≠ [] →
        (meanColor img).2.1 > (meanColor img).1 * (6 / 5) →
        (meanColor img).2.1 > (meanColor img).2.2 * (6 / 5) →
        mock_prediction h true false img classes ∈ healthyOf classes) ∧
    (∀ (h : HashFn) (img : Img), img.pixels ≠ [] →
        ¬ ((meanColor img).2.1 > (meanColor img).1 * (6 / 5) ∧
           (meanColor img).2.1 > (meanColor img).2.2 * (6 / 5)) →
        mock_prediction h true false img classes ∈ diseasedOf classes) ∧
    (∀ h : HashFn,
        mock_prediction h true false imgPureGreen50 classes ∈
          healthyOf classes) := by
  refine ⟨fun h img hne hg1 hg2 => ?_, fun h img hne hng => ?_, fun h => ?_⟩
  · exact mock_prediction_green h false img rfl
      ((greenDominant_iff_means img hne).mpr ⟨hg1, hg2⟩)
  · exact mock_prediction_not_green h false img rfl
      (fun hdom => hng ((greenDominant_iff_means img hne).mp hdom))
  · exact mock_prediction_green h false imgPureGreen50 rfl imgPureGreen50_dominant

theorem C6_green_branch_amended_witness :
    mock_prediction hConst0 true false imgGreen classes ∈ healthyOf classes ∧
    mock_prediction hConst0 true false imgGray classes ∈ diseasedOf classes :=
  ⟨C6_green_branch_amended.1 hConst0 imgGreen (by decide)
      (by norm_num [meanColor, sumR, sumG, sumB, imgGreen])
      (by norm_num [meanColor, sumR, sumG, sumB, imgGreen]),
   C6_green_branch_amended.2.1 hConst0 imgGray (by decide)
      (by norm_num [meanColor, sumR, sumG, sumB, imgGray])⟩

/-! ### Spec-side formatter variants (claim C4) -/

/-- Replace only the FIRST occurrence of `pat` (fuel-driven like
`replaceListAux`; the tail after the first match is kept verbatim). -/
def replaceFirstAux (pat sub : List Char) : Nat → List Char → List Char
  | _, [] => []
  | 0, rest => rest
  | fuel + 1, c :: cs =>
    if isPrefixList pat (c :: cs) then
      sub ++ List.drop pat.length (c :: cs)
    else
      c :: replaceFirstAux pat sub fuel cs

/-- The formatter exactly as the claim words it: replace the FIRST `"___"`
separator with `" - "`, then turn the remaining underscores into spaces,
title-case each word outside the minor-word set, and map empty input to
`"Unknown condition"`. -/
def format_prediction_specFirst (p : String) : String :=
  if p = "" then "Unknown condition"
  else
    String.intercalate " "
      ((pySplitWs (pyReplace
          (String.mk (replaceFirstAux "___".data " - ".data p.data.length p.data))
          "_" " ")).map formatWord)

/-- The formatter as the amended claim words it: EVERY `"___"` separator
becomes `" - "`, then remaining underscores become spaces, words are
title-cased except the minor-word set, empty input maps to
`"Unknown condition"`. -/
def format_prediction_specAll (p : String) : String :=
  if p = "" then "Unknown condition"
  else
    String.intercalate " "
      ((pySplitWs (pyReplace (pyReplace p "___" " - ") "_" " ")).map formatWord)

/-- C4 counterexample: the claim says only the first `"___"` separator is
replaced with `" - "`.  The source replaces every occurrence: on
`"a___b___c"` the code produces `"A - B - C"`, while the claim's
first-separator-only rule yields `"A - B C"`. -/
theorem C4_first_sep_counterexample :
    format_prediction "a___b___c" = "A - B - C" ∧
    format_prediction_specFirst "a___b___c" = "A - B C" ∧
    format_prediction "a___b___c" ≠ format_prediction_specFirst "a___b___c" := by
  decide

/-- C4 amended: `format_prediction` (total by construction: it returns a
string for every input) agrees with the spec-worded formatter in which EVERY
`"___"` separator becomes `" - "`; empty input maps to
`"Unknown condition"`; the spec's two display scenarios hold; minor words
stay lowercase wherever they occur while other words are title-cased. -/
theorem C4_formatter_amended :
    (∀ p : String, format_prediction p = format_prediction_specAll p) ∧
    format_prediction "" = "Unknown condition" ∧
    format_prediction "Tomato___Spider_mites Two-spotted_spider_mite" =
      "Tomato - Spider Mites Two-spotted Spider Mite" ∧
    format_prediction "Corn_(maize)___Cercospora_leaf_spot Gray_leaf_spot" =
      "Corn (maize) - Cercospora Leaf Spot Gray Leaf Spot" ∧
    (∀ w ∈ minorWords, formatWord w = w) ∧
    formatWord "AND" = "and" ∧
    formatWord "sPOT" = "Spot" :=
  ⟨fun _ => rfl, by decide, by decide, by decide, by decide, by decide, by decide⟩

theorem C4_formatter_amended_witness :
    format_prediction "Potato___Late_blight" =
      format_prediction_specAll "Potato___Late_blight" ∧
    formatWord "of" = "of" :=
  ⟨C4_formatter_amended.1 "Potato___Late_blight",
   C4_formatter_amended.2.2.2.2.1 "of" (by decide)⟩

/-- C5 counterexample: the claim derives the API success flag from the
`"Error:"` prefix of the raw label.  Uploading an allowed `.png` name whose
saved bytes decode to a 49×49 image makes `makePrediction` return the
`"Error:"`-prefixed dimension sentinel, yet the handler still answers
`success: True` with that sentinel as `original_prediction`. -/
theorem C5_success_flag_counterexample :
    (api_predict hConst0 true true false true "leaf.png" inp49).success = true ∧
    (api_predict hConst0 true true false true "leaf.png" inp49).original_prediction =
      some "Error: Image too small for analysis" ∧
    startsWithError "Error: Image too small for analysis" = true := by
  decide

/-- C5 amended: on `/api/predict` the success flag only reflects the upload
checks — a file part is present, its name is non-empty and its extension is
allowed — and is `true` on the main path regardless of whether the raw label
carries the `"Error:"` prefix. -/
theorem C5_success_flag_amended (h : HashFn) (hasPIL hasNumpy raises hasFile : Bool)
    (origName : String) (stored : FSImage) :
    (api_predict h hasPIL hasNumpy raises hasFile origName stored).success = true ↔
      (hasFile = true ∧ origName ≠ "" ∧ allowed_file origName = true) := by
  unfold api_predict
  split_ifs with h1 h2 h3
  · simp [h1]
  · simp [h2]
  · simp [h3]
  · simp only [ne_eq, Bool.not_eq_false] at h1 h3
    exact iff_of_true rfl ⟨h1, h2, h3⟩

end Plants






